import Mathlib

/-!
# Verification of the FishFight kinematic physics core

A shallow embedding of `src/core/src/physics.rs` (the `hydrate_physics_bodies`
and `update_kinematic_bodies` systems together with the `KinematicBody` data
model) and theorems about the per-tick stepping algorithm.

Numeric values (`f32` in the source) are embedded as rationals `ℚ`: every
claim under study is about control flow and exact algebraic updates, not about
floating-point rounding.

The `collisions` module (`CollisionWorld` and its query/movement primitives)
is not part of the sources under verification; its operations are modelled
from the specification as abstract oracles carried inside the `World` record,
so every theorem about the stepping code holds for an arbitrary collision
backend.
-/

namespace FishPhysics

/-- Entity handle of the ECS substrate (opaque integer key). -/
abbrev Entity := Nat

/-- Two-dimensional vector (`Vec2` of the source, with `ℚ` components). -/
structure Vec2 where
  x : ℚ
  y : ℚ
deriving DecidableEq, Repr

/-- `Vec2::ZERO`. -/
def Vec2.ZERO : Vec2 := ⟨0, 0⟩

/-- Modelled from the spec: the per-cell tile classification
`TileCollisionKind` of the missing `collisions` module — {Empty, Solid,
JumpThrough} (§2, §3 of the spec). -/
inductive TileCollisionKind where
  | Empty
  | JumpThrough
  | Solid
deriving DecidableEq, Repr

/-- Modelled from the spec: `ColliderShape` of the missing `collisions`
module — a tagged variant `Box {w, h}` or `Circle {r}` (§3 of the spec). -/
inductive ColliderShape where
  | Box (width height : ℚ)
  | Circle (radius : ℚ)
deriving DecidableEq, Repr

/-- Axis-aligned rectangle (`Rect` with `min`/`max` corners). -/
structure Rect where
  min : Vec2
  max : Vec2
deriving DecidableEq, Repr

/-- Body/world transform.  The source stores a 3-d translation and a
quaternion rotation; the stepping code only ever reads and writes the x/y
translation and the z-Euler angle of the rotation, which is what we keep. -/
structure Transform where
  translation : Vec2
  rotation : ℚ
deriving DecidableEq, Repr

/-- Modelled from the spec: the one-way-passage memory of the missing
`collisions` module — the `seen_wood` latch (a body has already passed through
a jump-through tile) and the descent mark set by `descent()` (§3, §4.1 of the
spec). -/
structure Passage where
  seen_wood : Bool
  descent : Bool
deriving DecidableEq, Repr

/-- Modelled from the spec: the mirrored `Collider` record of the missing
`collisions` module — shape mirror, `disabled` flag, and the one-way-passage
latches (§3 of the spec). -/
structure Collider where
  shape : ColliderShape
  disabled : Bool
  seen_wood : Bool
  descent : Bool
deriving DecidableEq, Repr

/-- A kinematic physics body (struct `KinematicBody` of `physics.rs`). -/
structure KinematicBody where
  velocity : Vec2
  shape : ColliderShape
  /-- Angular velocity in degrees per second -/
  angular_velocity : ℚ
  gravity : ℚ
  bounciness : ℚ
  /-- One-frame friction override; the source documents it as re-set to `None`
  every frame. -/
  frame_friction_override : Option ℚ
  is_on_ground : Bool
  was_on_ground : Bool
  is_on_platform : Bool
  has_mass : Bool
  has_friction : Bool
  can_rotate : Bool
  is_deactivated : Bool
  fall_through : Bool
  is_spawning : Bool
deriving DecidableEq, Repr

/-- The physics tuning constants read from `game.physics` (friction lerp,
stop threshold, gravity constant, terminal velocity). -/
structure PhysicsMeta where
  friction_lerp : ℚ
  stop_threshold : ℚ
  gravity : ℚ
  terminal_velocity : ℚ
deriving DecidableEq, Repr

/-- `crate::FPS` (60 frames per second). -/
def FPS : ℚ := 60

/-- Modelled from the spec: `ColliderShape::compute_aabb` of the missing
`collisions` module — the smallest non-rotated rectangle containing the shape
placed at the transform's translation (§3 of the spec; the kinematic shapes
are axis-aligned). -/
def ColliderShape.compute_aabb (shape : ColliderShape) (transform : Transform) : Rect :=
  match shape with
  | .Box w h =>
      { min := ⟨transform.translation.x - w / 2, transform.translation.y - h / 2⟩
        max := ⟨transform.translation.x + w / 2, transform.translation.y + h / 2⟩ }
  | .Circle r =>
      { min := ⟨transform.translation.x - r, transform.translation.y - r⟩
        max := ⟨transform.translation.x + r, transform.translation.y + r⟩ }

/-- `KinematicBody::bounding_box`: the body's AABB at the given transform. -/
def KinematicBody.bounding_box (body : KinematicBody) (transform : Transform) : Rect :=
  body.shape.compute_aabb transform

/-- The collision world.  The component registries (`colliders`, `actors`,
`tile_collision_kinds`) are explicit maps; the geometric query and movement
primitives of the missing `collisions` module are abstract oracles, modelled
from the spec (§4.1): `tile_collision` classifies a shape against the map
(Solid wins ties), `tile_collision_filtered` additionally takes a predicate
excluding specific colliding cells, `solid_at` is the point probe used by
de-penetration, and `move_vertical` / `move_horizontal` integrate one axis of
motion, update the entity's one-way-passage memory, and report whether the
motion was truncated by a collision.  `toRadians` abstracts the host's
degree-to-radian float conversion. -/
structure World where
  colliders : Entity → Option Collider
  actors : Entity → Bool
  tile_collision_kinds : Entity → Option TileCollisionKind
  tile_collision : Transform → ColliderShape → TileCollisionKind
  tile_collision_filtered :
    Transform → ColliderShape → (Entity → Bool) → TileCollisionKind
  solid_at : Vec2 → Bool
  move_vertical : Entity → Transform → Collider → ℚ → Transform × Passage × Bool
  move_horizontal : Entity → Transform → Collider → ℚ → Transform × Passage × Bool
  toRadians : ℚ → ℚ

/-- Point update of an entity-keyed map. -/
def updateMap {α : Type} (m : Entity → Option α) (e : Entity) (v : Option α) :
    Entity → Option α :=
  fun e2 => if e2 = e then v else m e2

/-- Replace the collider mirrored for `entity`. -/
def World.setCollider (w : World) (entity : Entity) (c : Collider) : World :=
  { w with colliders := updateMap w.colliders entity (some c) }

/-- Modelled from the spec: `CollisionWorld::handle_teleport` of the missing
`collisions` module — clears the entity's one-way-passage memory as if the
collider were newly added to the world (§4.1 of the spec). -/
def World.handle_teleport (w : World) (entity : Entity) : World :=
  match w.colliders entity with
  | none => w
  | some c => w.setCollider entity { c with seen_wood := false, descent := false }

/-- Modelled from the spec: `CollisionWorld::descent` of the missing
`collisions` module — marks the entity as actively dropping through
jump-through tiles this tick (§4.1 of the spec). -/
def World.descent (w : World) (entity : Entity) : World :=
  match w.colliders entity with
  | none => w
  | some c => w.setCollider entity { c with descent := true }

/-- The loop body of `hydrate_physics_bodies`: insert a `Collider` built from
the body's shape with default (`false`) flags, register the `Actor` marker,
and call `handle_teleport`. -/
def hydrateOne (bodies : Entity → Option KinematicBody) (w : World)
    (entity : Entity) : World :=
  match bodies entity with
  | some body =>
      let w := { w with
        colliders := updateMap w.colliders entity
          (some { shape := body.shape, disabled := false
                  seen_wood := false, descent := false })
        actors := fun e2 => e2 = entity || w.actors e2 }
      w.handle_teleport entity
  | none => w

/-- `hydrate_physics_bodies`: find entities carrying a `KinematicBody` but no
`Collider` (bitset difference computed before the loop) and hydrate each. -/
def hydrate_physics_bodies (entities : List Entity)
    (bodies : Entity → Option KinematicBody) (w : World) : World :=
  let needs_hydrate : Entity → Bool :=
    fun e => !(w.colliders e).isSome && (bodies e).isSome
  (entities.filter needs_hydrate).foldl (hydrateOne bodies) w

/-- State of one body while it is being stepped: the collision world, the
body's transform and the body record itself. -/
structure StepState where
  world : World
  transform : Transform
  body : KinematicBody

/-- Offset a transform's translation along y. -/
def offsetY (t : Transform) (d : ℚ) : Transform :=
  { t with translation := { t.translation with y := t.translation.y + d } }

/-- Offset a transform's translation along x. -/
def offsetX (t : Transform) (d : ℚ) : Transform :=
  { t with translation := { t.translation with x := t.translation.x + d } }

/-- The "shove objects out of walls" loop of `update_kinematic_bodies`:
while the shape still classifies as `Solid`, probe the four AABB corners
(padded by a `0.1` border) with `solid_at` and nudge one unit toward the open
side, in the source's match order (all-corners-clear anomaly first, then top
pair, right pair, bottom pair, left pair, and a silent give-up otherwise).
The returned `Bool` records whether the anomaly warning was emitted; `none`
means the fuel bound was exhausted (the source loop is unbounded). -/
def depenLoop (w : World) (body : KinematicBody) :
    Transform → Nat → Option (Transform × Bool)
  | _, 0 => none
  | t, fuel + 1 =>
    if w.tile_collision t body.shape ≠ TileCollisionKind.Solid then
      some (t, false)
    else
      let rect := body.bounding_box t
      let border : ℚ := 1 / 10
      let tl := w.solid_at ⟨rect.min.x - border, rect.max.y + border⟩
      let tr := w.solid_at ⟨rect.max.x + border, rect.max.y + border⟩
      let br := w.solid_at ⟨rect.max.x + border, rect.min.y - border⟩
      let bl := w.solid_at ⟨rect.min.x - border, rect.min.y - border⟩
      match tl, tr, br, bl with
      | false, false, false, false => some (t, true)
      | false, false, _, _ => depenLoop w body (offsetY t 1) fuel
      | _, false, false, _ => depenLoop w body (offsetX t 1) fuel
      | _, _, false, false => depenLoop w body (offsetY t (-1)) fuel
      | false, _, _, false => depenLoop w body (offsetX t (-1)) fuel
      | _, _, _, _ => some (t, false)

/-- Step 1 of the Mover: sync the `disabled` flag on the mirrored collider
(`none` models the source's `unwrap` panic on a missing mirror). -/
def syncDisabledStep (entity : Entity) (d : Bool) (s : StepState) :
    Option StepState :=
  match s.world.colliders entity with
  | none => none
  | some c => some { s with world := s.world.setCollider entity { c with disabled := d } }

/-- Step 2 of the Mover: run the de-penetration loop when the body has mass
(the anomaly flag is only logged by the source, so it is dropped here). -/
def shoveOutOfWalls (fuel : Nat) (s : StepState) : Option StepState :=
  if s.body.has_mass then
    match depenLoop s.world s.body s.transform fuel with
    | none => none
    | some (t, _) => some { s with transform := t }
  else
    some s

/-- Step 3 of the Mover: sync the mirrored collider's shape from the body. -/
def syncColliderShape (entity : Entity) (s : StepState) : Option StepState :=
  match s.world.colliders entity with
  | none => none
  | some c => some { s with world := s.world.setCollider entity { c with shape := s.body.shape } }

/-- Step 4 of the Mover: on `is_spawning`, call `handle_teleport` and clear
the flag. -/
def spawnCheck (entity : Entity) (s : StepState) : StepState :=
  if s.body.is_spawning then
    { s with
      world := s.world.handle_teleport entity
      body := { s.body with is_spawning := false } }
  else s

/-- Step 5 of the Mover: on `fall_through`, call `descent`. -/
def fallThroughDescent (entity : Entity) (s : StepState) : StepState :=
  if s.body.fall_through then { s with world := s.world.descent entity } else s

/-- Step 6 of the Mover: the axis-ordered move.  First `move_vertical` by
`velocity.y * time_factor`, reflecting `velocity.y` by `-bounciness` on
collision; then `move_horizontal` by `velocity.x * time_factor` — on the
transform and passage memory produced by the vertical move — reflecting
`velocity.x` by `-bounciness` on collision. -/
def moveBody (tf : ℚ) (entity : Entity) (s : StepState) : Option StepState :=
  match s.world.colliders entity with
  | none => none
  | some c =>
    let rv := s.world.move_vertical entity s.transform c (s.body.velocity.y * tf)
    let c1 : Collider :=
      { c with seen_wood := rv.2.1.seen_wood, descent := rv.2.1.descent }
    let body1 :=
      if rv.2.2 then
        { s.body with velocity :=
            { s.body.velocity with y := s.body.velocity.y * (-s.body.bounciness) } }
      else s.body
    let rh := s.world.move_horizontal entity rv.1 c1 (body1.velocity.x * tf)
    let c2 : Collider :=
      { c1 with seen_wood := rh.2.1.seen_wood, descent := rh.2.1.descent }
    let body2 :=
      if rh.2.2 then
        { body1 with velocity :=
            { body1.velocity with x := body1.velocity.x * (-body1.bounciness) } }
      else body1
    some { world := s.world.setCollider entity c2, transform := rh.1, body := body2 }

/-- The predicate passed to `tile_collision_filtered` by the motionless-wedge
check: keep exactly the cells whose kind is `JumpThrough`
(`map(|x| *x == JumpThrough).unwrap_or(false)`). -/
def jumpThroughOnlyFilter (w : World) : Entity → Bool :=
  fun ent =>
    ((w.tile_collision_kinds ent).map
      (fun x => decide (x = TileCollisionKind.JumpThrough))).getD false

/-- The predicate passed to `tile_collision_filtered` by the ground probe:
when `seen_wood` is set, keep exactly the cells whose kind is not
`JumpThrough` (`map(|x| *x != JumpThrough).unwrap_or(false)`); otherwise keep
everything. -/
def seenWoodFilter (w : World) (seen_wood : Bool) : Entity → Bool :=
  fun ent =>
    if seen_wood then
      ((w.tile_collision_kinds ent).map
        (fun x => decide (x ≠ TileCollisionKind.JumpThrough))).getD false
    else true

/-- The ground probe's transform: the post-move position moved down by 0.1. -/
def probeDown (t : Transform) : Transform := offsetY t (-(1 / 10))

/-- Step 8 of the Mover (executed first in the source's ground-collision
block): if the velocity is exactly zero and the probe restricted to
jump-through cells still detects `JumpThrough` at the current position, latch
`fall_through`. -/
def wedgeCheck (s : StepState) : StepState :=
  if s.body.velocity = Vec2.ZERO ∧
      s.world.tile_collision_filtered s.transform s.body.shape
        (jumpThroughOnlyFilter s.world) = TileCollisionKind.JumpThrough then
    { s with body := { s.body with fall_through := true } }
  else s

/-- Step 7 of the Mover: record `was_on_ground`, probe the tile kind 0.1
below the post-move position with the `seen_wood` filter, and recompute
`is_on_ground` / `is_on_platform`. -/
def groundClassify (entity : Entity) (s : StepState) : Option StepState :=
  let body1 := { s.body with was_on_ground := s.body.is_on_ground }
  match s.world.colliders entity with
  | none => none
  | some collider =>
    let tile := s.world.tile_collision_filtered (probeDown s.transform) body1.shape
      (seenWoodFilter s.world collider.seen_wood)
    let on_jump_through_tile := decide (tile = TileCollisionKind.JumpThrough)
    let ground :=
      decide (tile ≠ TileCollisionKind.Empty) &&
        !(on_jump_through_tile && body1.fall_through)
    some { s with body :=
      { body1 with
        is_on_ground := ground
        is_on_platform := ground && on_jump_through_tile } }

/-- Step 9 of the Mover: the grounded velocity policy.  When grounded with
friction: scale `velocity.x` by the frame override (consumed) or the ambient
`friction_lerp`, snap it to zero at or below `stop_threshold`, and damp
`velocity.y` by `friction_lerp`; when grounded and `velocity.y` is at or
below the gravity constant, zero `velocity.y`. -/
def groundPolicy (game : PhysicsMeta) (s : StepState) : StepState :=
  if s.body.is_on_ground then
    let body := s.body
    let body :=
      if body.has_friction then
        let friction :=
          match body.frame_friction_override with
          | some f => f
          | none => game.friction_lerp
        let body :=
          { body with
            velocity := { body.velocity with x := body.velocity.x * friction }
            frame_friction_override := none }
        let body :=
          if |body.velocity.x| ≤ game.stop_threshold then
            { body with velocity := { body.velocity with x := 0 } }
          else body
        { body with velocity := { body.velocity with y := body.velocity.y * game.friction_lerp } }
      else body
    let body :=
      if body.velocity.y ≤ game.gravity then
        { body with velocity := { body.velocity with y := 0 } }
      else body
    { s with body := body }
  else s

/-- Step 10 of the Mover: gravity integration for airborne massive bodies,
with the terminal-velocity floor. -/
def gravityStep (game : PhysicsMeta) (tf : ℚ) (s : StepState) : StepState :=
  if !s.body.is_on_ground && s.body.has_mass then
    let body :=
      { s.body with velocity :=
          { s.body.velocity with y := s.body.velocity.y - s.body.gravity * tf } }
    let body :=
      if body.velocity.y < -game.terminal_velocity then
        { body with velocity := { body.velocity with y := -game.terminal_velocity } }
      else body
    { s with body := body }
  else s

/-- `apply_rotation`: the cosmetic spin heuristic (grounded circles spin with
`|velocity.x|`, airborne bodies spin at a constant rate). -/
def apply_rotation (toRadians : ℚ → ℚ) (transform : Transform) (velocity : Vec2)
    (angular_velocity : ℚ) (is_on_ground : Bool) (collider_shape : ColliderShape) :
    Transform :=
  let angle := transform.rotation
  let angle :=
    if is_on_ground then
      match collider_shape with
      | .Circle _ => angle + |velocity.x| * angular_velocity
      | _ => angle
    else
      angle + toRadians (angular_velocity * FPS)
  { transform with rotation := angle }

/-- Step 11 of the Mover: apply rotation when `can_rotate`. -/
def rotateStep (s : StepState) : StepState :=
  if s.body.can_rotate then
    let t :=
      apply_rotation s.world.toRadians s.transform s.body.velocity
        s.body.angular_velocity s.body.is_on_ground s.body.shape
    { s with transform := t }
  else s

/-- Steps 1–5 of the Mover for an active body: disabled sync, de-penetration,
shape sync, spawning teleport, descent. -/
def stepPreMove (entity : Entity) (fuel : Nat) (s : StepState) : Option StepState :=
  (syncDisabledStep entity false s).bind fun s =>
    (shoveOutOfWalls fuel s).bind fun s =>
      (syncColliderShape entity s).map fun s =>
        fallThroughDescent entity (spawnCheck entity s)

/-- Steps 1–6 of the Mover for an active body (through the axis-ordered
move). -/
def stepThroughMove (tf : ℚ) (entity : Entity) (fuel : Nat) (s : StepState) :
    Option StepState :=
  (stepPreMove entity fuel s).bind (moveBody tf entity)

/-- The per-body step of `update_kinematic_bodies`: a deactivated body only
has its collider disabled; an active body runs steps 1–11 in the source's
order (wedge check before ground classification, then ground policy, gravity
and rotation). -/
def updateKinematicBody (game : PhysicsMeta) (tf : ℚ) (entity : Entity)
    (fuel : Nat) (s : StepState) : Option StepState :=
  if s.body.is_deactivated then
    syncDisabledStep entity true s
  else
    (stepThroughMove tf entity fuel s).bind fun s =>
      (groundClassify entity (wedgeCheck s)).map fun s =>
        rotateStep (gravityStep game tf (groundPolicy game s))

/-- `update_kinematic_bodies` over all entities: entities without a body are
skipped (`iter_with`), a missing transform models the source's `unwrap`
panic.  The initial `collision_world.update(&transforms)` resynchronizes the
backend's spatial index, which lives inside the query oracles and has no
observable state here. -/
def update_kinematic_bodies (game : PhysicsMeta) (tf : ℚ) (fuel : Nat)
    (entities : List Entity) (bodies : Entity → Option KinematicBody)
    (transforms : Entity → Option Transform) (w : World) :
    Option ((Entity → Option KinematicBody) × (Entity → Option Transform) × World) :=
  entities.foldl
    (fun acc e =>
      acc.bind fun btw =>
        match btw.1 e with
        | none => some btw
        | some body =>
          match btw.2.1 e with
          | none => none
          | some t =>
            (updateKinematicBody game tf e fuel ⟨btw.2.2, t, body⟩).map fun s =>
              (updateMap btw.1 e (some s.body),
               updateMap btw.2.1 e (some s.transform), s.world))
    (some (bodies, transforms, w))

/-! ## Concrete fixtures

Small concrete worlds and bodies used to instantiate the theorems below on
explicit inputs. -/

/-- A collision backend that reports no tiles anywhere and whose moves always
succeed without contact. -/
def emptyWorld : World where
  colliders := fun _ => none
  actors := fun _ => false
  tile_collision_kinds := fun _ => none
  tile_collision := fun _ _ => TileCollisionKind.Empty
  tile_collision_filtered := fun _ _ _ => TileCollisionKind.Empty
  solid_at := fun _ => false
  move_vertical := fun _ t c _ => (t, ⟨c.seen_wood, c.descent⟩, false)
  move_horizontal := fun _ t _ _ => (t, ⟨false, false⟩, false)
  toRadians := fun x => x

/-- A fresh collider mirroring a 2×2 box. -/
def collider0 : Collider := ⟨ColliderShape.Box 2 2, false, false, false⟩

/-- The empty backend with entity 0 hydrated. -/
def world0 : World :=
  { emptyWorld with colliders := fun e => if e = 0 then some collider0 else none }

/-- The hydrated backend where every shape probe reports `Solid`. -/
def worldSolid : World :=
  { world0 with
    tile_collision := fun _ _ => TileCollisionKind.Solid
    tile_collision_filtered := fun _ _ _ => TileCollisionKind.Solid }

/-- The hydrated backend where every shape probe reports `JumpThrough`. -/
def worldJT : World :=
  { world0 with
    tile_collision_filtered := fun _ _ _ => TileCollisionKind.JumpThrough }

/-- The hydrated backend where every shape probe reports `Solid` and every
point probe reports solid ground (all four de-penetration corners blocked). -/
def worldAllBlocked : World :=
  { worldSolid with solid_at := fun _ => true }

/-- A quiescent 2×2 box body with every behaviour flag off. -/
def body0 : KinematicBody where
  velocity := ⟨0, 0⟩
  shape := ColliderShape.Box 2 2
  angular_velocity := 0
  gravity := 1
  bounciness := 0
  frame_friction_override := none
  is_on_ground := false
  was_on_ground := false
  is_on_platform := false
  has_mass := false
  has_friction := false
  can_rotate := false
  is_deactivated := false
  fall_through := false
  is_spawning := false

/-- The identity transform. -/
def trans0 : Transform := ⟨⟨0, 0⟩, 0⟩

/-- Representative tuning constants. -/
def game0 : PhysicsMeta := ⟨19 / 20, 1 / 100, 1, 10⟩

/-- The quiescent body hydrated in the empty backend. -/
def state0 : StepState := ⟨world0, trans0, body0⟩

/-- The quiescent body standing on solid ground. -/
def stateC1 : StepState := ⟨worldSolid, trans0, body0⟩

/-- The C1 fixture after steps 1–6 (computed by running the step). -/
def midC1 : StepState := (stepThroughMove 1 0 4 stateC1).getD state0

/-- The C1 fixture's mirrored collider after steps 1–6. -/
def colC1 : Collider := (midC1.world.colliders 0).getD collider0

/-- The C1 fixture after the full per-body step. -/
def outC1 : StepState := (updateKinematicBody game0 1 0 4 stateC1).getD state0

/-- The hydrated backend whose horizontal move always reports a collision. -/
def worldBounce : World :=
  { world0 with move_horizontal := fun _ t _ _ => (t, ⟨false, false⟩, true) }

/-- A frictionless box moving right at 4 units/tick with bounciness 1/2. -/
def bodyC2 : KinematicBody := { body0 with velocity := ⟨4, 0⟩, bounciness := 1 / 2 }

/-- The bouncing body in the colliding backend. -/
def stateC2 : StepState := ⟨worldBounce, trans0, bodyC2⟩

/-- The C2 fixture after steps 1–5. -/
def preC2 : StepState := (stepPreMove 0 4 stateC2).getD state0

/-- The C2 fixture's mirrored collider after steps 1–5. -/
def colC2 : Collider := (preC2.world.colliders 0).getD collider0

/-- The C2 fixture after the full per-body step. -/
def outC2 : StepState := (updateKinematicBody game0 1 0 4 stateC2).getD state0

/-- A frictionless body on solid ground with a large upward velocity. -/
def stateC3 : StepState :=
  ⟨worldSolid, trans0, { body0 with velocity := ⟨0, 5⟩ }⟩

/-- A grounded body with friction and a pending friction override. -/
def stateC3g : StepState :=
  ⟨world0, trans0,
   { body0 with
      velocity := ⟨3, 5⟩, is_on_ground := true, has_friction := true
      frame_friction_override := some (1 / 3) }⟩

/-- An airborne body with friction and a pending friction override. -/
def stateC4 : StepState :=
  ⟨world0, trans0,
   { body0 with has_friction := true, frame_friction_override := some (1 / 2) }⟩

/-- A massless moving body. -/
def stateC5a : StepState := ⟨world0, trans0, { body0 with velocity := ⟨2, 7⟩ }⟩

/-- A fast-falling airborne massive body. -/
def stateC5b : StepState :=
  ⟨world0, trans0, { body0 with has_mass := true, velocity := ⟨0, -100⟩ }⟩

/-- The solid-everywhere backend with all de-penetration corners clear. -/
def worldAllClear : World :=
  { world0 with tile_collision := fun _ _ => TileCollisionKind.Solid }

/-- A deactivated body whose shape disagrees with its mirrored collider. -/
def stateC7 : StepState :=
  ⟨world0, trans0,
   { body0 with is_deactivated := true, shape := ColliderShape.Box 1 1 }⟩

/-- The active quiescent body after the full per-body step. -/
def outC7 : StepState := (updateKinematicBody game0 1 0 4 state0).getD state0

/-- A body record for the hydration witness. -/
def bodiesC8 : Entity → Option KinematicBody :=
  fun e => if e = 0 then some body0 else none

/-- The motionless body over jump-through tiles. -/
def stateC9 : StepState := ⟨worldJT, trans0, body0⟩

/-- The C9 fixture after steps 1–6. -/
def midC9 : StepState := (stepThroughMove 1 0 4 stateC9).getD state0

/-- The C9 fixture after the full per-body step. -/
def outC9 : StepState := (updateKinematicBody game0 1 0 4 stateC9).getD state0

/-- The C9 fixture's mirrored collider after steps 1–6. -/
def colC9 : Collider := (midC9.world.colliders 0).getD collider0

/-! ## Preservation lemmas for the sub-steps -/

theorem rotateStep_body (s : StepState) : (rotateStep s).body = s.body := by
  unfold rotateStep; split <;> rfl

theorem rotateStep_world (s : StepState) : (rotateStep s).world = s.world := by
  unfold rotateStep; split <;> rfl

theorem gravityStep_keeps (game : PhysicsMeta) (tf : ℚ) (s : StepState) :
    (gravityStep game tf s).world = s.world ∧
    (gravityStep game tf s).transform = s.transform ∧
    (gravityStep game tf s).body.is_on_ground = s.body.is_on_ground ∧
    (gravityStep game tf s).body.is_on_platform = s.body.is_on_platform ∧
    (gravityStep game tf s).body.was_on_ground = s.body.was_on_ground ∧
    (gravityStep game tf s).body.fall_through = s.body.fall_through ∧
    (gravityStep game tf s).body.velocity.x = s.body.velocity.x ∧
    (gravityStep game tf s).body.frame_friction_override
      = s.body.frame_friction_override ∧
    (gravityStep game tf s).body.shape = s.body.shape := by
  unfold gravityStep
  split
  · dsimp only; split <;> simp
  · simp

theorem groundPolicy_keeps (game : PhysicsMeta) (s : StepState) :
    (groundPolicy game s).world = s.world ∧
    (groundPolicy game s).transform = s.transform ∧
    (groundPolicy game s).body.is_on_ground = s.body.is_on_ground ∧
    (groundPolicy game s).body.is_on_platform = s.body.is_on_platform ∧
    (groundPolicy game s).body.was_on_ground = s.body.was_on_ground ∧
    (groundPolicy game s).body.fall_through = s.body.fall_through ∧
    (groundPolicy game s).body.has_mass = s.body.has_mass ∧
    (groundPolicy game s).body.shape = s.body.shape := by
  simp only [groundPolicy]
  split_ifs <;> simp

theorem groundPolicy_no_friction_vx (game : PhysicsMeta) (s : StepState)
    (h : s.body.has_friction = false) :
    (groundPolicy game s).body.velocity.x = s.body.velocity.x := by
  unfold groundPolicy
  split
  · simp only [h, Bool.false_eq_true, if_false]
    split <;> simp
  · rfl

theorem gravityStep_no_mass (game : PhysicsMeta) (tf : ℚ) (s : StepState)
    (h : s.body.has_mass = false) : gravityStep game tf s = s := by
  unfold gravityStep
  simp [h]

theorem syncDisabledStep_eq (entity : Entity) (d : Bool) (s : StepState)
    (c : Collider) (hc : s.world.colliders entity = some c) :
    syncDisabledStep entity d s
      = some { s with world := s.world.setCollider entity { c with disabled := d } } := by
  simp [syncDisabledStep, hc]

theorem syncColliderShape_eq (entity : Entity) (s : StepState) (c : Collider)
    (hc : s.world.colliders entity = some c) :
    syncColliderShape entity s
      = some { s with world := s.world.setCollider entity { c with shape := s.body.shape } } := by
  simp [syncColliderShape, hc]

theorem shoveOutOfWalls_parts (fuel : Nat) (s s' : StepState)
    (h : shoveOutOfWalls fuel s = some s') :
    s'.world = s.world ∧ s'.body = s.body := by
  unfold shoveOutOfWalls at h
  split at h
  · cases hd : depenLoop s.world s.body s.transform fuel with
    | none => rw [hd] at h; exact absurd h (by simp)
    | some p => rw [hd] at h; cases h; exact ⟨rfl, rfl⟩
  · cases h; exact ⟨rfl, rfl⟩

theorem spawnCheck_parts (entity : Entity) (s : StepState) :
    (spawnCheck entity s).transform = s.transform ∧
    (spawnCheck entity s).body.velocity = s.body.velocity ∧
    (spawnCheck entity s).body.is_on_ground = s.body.is_on_ground ∧
    (spawnCheck entity s).body.was_on_ground = s.body.was_on_ground ∧
    (spawnCheck entity s).body.fall_through = s.body.fall_through ∧
    (spawnCheck entity s).body.has_friction = s.body.has_friction ∧
    (spawnCheck entity s).body.has_mass = s.body.has_mass ∧
    (spawnCheck entity s).body.shape = s.body.shape ∧
    (spawnCheck entity s).body.bounciness = s.body.bounciness ∧
    (spawnCheck entity s).body.frame_friction_override
      = s.body.frame_friction_override ∧
    (spawnCheck entity s).body.is_deactivated = s.body.is_deactivated := by
  unfold spawnCheck
  split <;> simp

theorem fallThroughDescent_parts (entity : Entity) (s : StepState) :
    (fallThroughDescent entity s).transform = s.transform ∧
    (fallThroughDescent entity s).body = s.body := by
  unfold fallThroughDescent
  split <;> exact ⟨rfl, rfl⟩

theorem moveBody_body (tf : ℚ) (entity : Entity) (s s₁ : StepState)
    (h : moveBody tf entity s = some s₁) :
    s₁.body.is_on_ground = s.body.is_on_ground ∧
    s₁.body.was_on_ground = s.body.was_on_ground ∧
    s₁.body.fall_through = s.body.fall_through ∧
    s₁.body.has_friction = s.body.has_friction ∧
    s₁.body.has_mass = s.body.has_mass ∧
    s₁.body.shape = s.body.shape ∧
    s₁.body.bounciness = s.body.bounciness ∧
    s₁.body.frame_friction_override = s.body.frame_friction_override ∧
    s₁.body.is_deactivated = s.body.is_deactivated := by
  unfold moveBody at h
  cases hc : s.world.colliders entity with
  | none => rw [hc] at h; exact absurd h (by simp)
  | some c =>
    rw [hc] at h
    cases h
    dsimp only
    split <;> split <;> simp

theorem wedgeCheck_world (s : StepState) : (wedgeCheck s).world = s.world := by
  unfold wedgeCheck; split <;> rfl

theorem wedgeCheck_transform (s : StepState) :
    (wedgeCheck s).transform = s.transform := by
  unfold wedgeCheck; split <;> rfl

theorem wedgeCheck_body (s : StepState) :
    (wedgeCheck s).body.fall_through
      = ((decide (s.body.velocity = Vec2.ZERO) &&
          decide (s.world.tile_collision_filtered s.transform s.body.shape
            (jumpThroughOnlyFilter s.world) = TileCollisionKind.JumpThrough)) ||
         s.body.fall_through) ∧
    (wedgeCheck s).body.velocity = s.body.velocity ∧
    (wedgeCheck s).body.is_on_ground = s.body.is_on_ground ∧
    (wedgeCheck s).body.shape = s.body.shape ∧
    (wedgeCheck s).body.has_friction = s.body.has_friction ∧
    (wedgeCheck s).body.has_mass = s.body.has_mass ∧
    (wedgeCheck s).body.frame_friction_override
      = s.body.frame_friction_override := by
  unfold wedgeCheck
  split
  · rename_i hcond
    simp [hcond.1, hcond.2]
  · rename_i hcond
    rw [Classical.not_and_iff_or_not_not] at hcond
    rcases hcond with hv | hp
    · simp [hv]
    · simp [hp]

theorem groundClassify_eq (entity : Entity) (s : StepState) (c : Collider)
    (hc : s.world.colliders entity = some c) :
    groundClassify entity s =
      (let tile := s.world.tile_collision_filtered (probeDown s.transform)
        s.body.shape (seenWoodFilter s.world c.seen_wood)
       let ground := decide (tile ≠ TileCollisionKind.Empty) &&
        !(decide (tile = TileCollisionKind.JumpThrough) && s.body.fall_through)
       some { s with body :=
        { s.body with
          was_on_ground := s.body.is_on_ground
          is_on_ground := ground
          is_on_platform := ground && decide (tile = TileCollisionKind.JumpThrough) } }) := by
  simp [groundClassify, hc]

theorem groundClassify_parts (entity : Entity) (s s₂ : StepState)
    (h : groundClassify entity s = some s₂) :
    s₂.world = s.world ∧ s₂.transform = s.transform ∧
    s₂.body.fall_through = s.body.fall_through ∧
    s₂.body.velocity = s.body.velocity ∧
    s₂.body.was_on_ground = s.body.is_on_ground ∧
    s₂.body.has_friction = s.body.has_friction ∧
    s₂.body.has_mass = s.body.has_mass ∧
    s₂.body.shape = s.body.shape ∧
    s₂.body.frame_friction_override = s.body.frame_friction_override := by
  unfold groundClassify at h
  cases hc : s.world.colliders entity with
  | none => rw [hc] at h; exact absurd h (by simp)
  | some c => rw [hc] at h; cases h; simp

theorem syncDisabledStep_parts (entity : Entity) (d : Bool) (s s' : StepState)
    (h : syncDisabledStep entity d s = some s') :
    s'.transform = s.transform ∧ s'.body = s.body := by
  unfold syncDisabledStep at h
  cases hc : s.world.colliders entity with
  | none => rw [hc] at h; exact absurd h (by simp)
  | some c => rw [hc] at h; cases h; exact ⟨rfl, rfl⟩

theorem syncColliderShape_parts (entity : Entity) (s s' : StepState)
    (h : syncColliderShape entity s = some s') :
    s'.transform = s.transform ∧ s'.body = s.body := by
  unfold syncColliderShape at h
  cases hc : s.world.colliders entity with
  | none => rw [hc] at h; exact absurd h (by simp)
  | some c => rw [hc] at h; cases h; exact ⟨rfl, rfl⟩

theorem stepPreMove_parts (entity : Entity) (fuel : Nat) (s sp : StepState)
    (h : stepPreMove entity fuel s = some sp) :
    sp.body.velocity = s.body.velocity ∧
    sp.body.is_on_ground = s.body.is_on_ground ∧
    sp.body.was_on_ground = s.body.was_on_ground ∧
    sp.body.fall_through = s.body.fall_through ∧
    sp.body.has_friction = s.body.has_friction ∧
    sp.body.has_mass = s.body.has_mass ∧
    sp.body.shape = s.body.shape ∧
    sp.body.bounciness = s.body.bounciness ∧
    sp.body.frame_friction_override = s.body.frame_friction_override ∧
    sp.body.is_deactivated = s.body.is_deactivated := by
  unfold stepPreMove at h
  cases h1 : syncDisabledStep entity false s with
  | none => rw [h1] at h; exact absurd h (by simp)
  | some sa =>
    rw [h1] at h
    replace h : (shoveOutOfWalls fuel sa).bind
        (fun s => (syncColliderShape entity s).map fun s =>
          fallThroughDescent entity (spawnCheck entity s)) = some sp := h
    cases h2 : shoveOutOfWalls fuel sa with
    | none => rw [h2] at h; exact absurd h (by simp)
    | some sb =>
      rw [h2] at h
      replace h : (syncColliderShape entity sb).map
          (fun s => fallThroughDescent entity (spawnCheck entity s)) = some sp := h
      cases h3 : syncColliderShape entity sb with
      | none => rw [h3] at h; exact absurd h (by simp)
      | some sc =>
        rw [h3] at h
        replace h : some (fallThroughDescent entity (spawnCheck entity sc)) = some sp := h
        have hsp := Option.some.inj h
        subst hsp
        have e1 := (syncDisabledStep_parts entity false s sa h1).2
        have e2 := (shoveOutOfWalls_parts fuel sa sb h2).2
        have e3 := (syncColliderShape_parts entity sb sc h3).2
        have e4 := spawnCheck_parts entity sc
        have e5 := (fallThroughDescent_parts entity (spawnCheck entity sc)).2
        rw [e5]
        rw [e3, e2, e1] at e4
        exact ⟨e4.2.1, e4.2.2.1, e4.2.2.2.1, e4.2.2.2.2.1, e4.2.2.2.2.2.1,
          e4.2.2.2.2.2.2.1, e4.2.2.2.2.2.2.2.1, e4.2.2.2.2.2.2.2.2.1,
          e4.2.2.2.2.2.2.2.2.2.1, e4.2.2.2.2.2.2.2.2.2.2⟩

theorem stepThroughMove_parts (tf : ℚ) (entity : Entity) (fuel : Nat)
    (s s₁ : StepState) (h : stepThroughMove tf entity fuel s = some s₁) :
    s₁.body.is_on_ground = s.body.is_on_ground ∧
    s₁.body.was_on_ground = s.body.was_on_ground ∧
    s₁.body.fall_through = s.body.fall_through ∧
    s₁.body.has_friction = s.body.has_friction ∧
    s₁.body.has_mass = s.body.has_mass ∧
    s₁.body.shape = s.body.shape ∧
    s₁.body.bounciness = s.body.bounciness ∧
    s₁.body.frame_friction_override = s.body.frame_friction_override ∧
    s₁.body.is_deactivated = s.body.is_deactivated := by
  unfold stepThroughMove at h
  cases h1 : stepPreMove entity fuel s with
  | none => rw [h1] at h; exact absurd h (by simp)
  | some sp =>
    rw [h1] at h
    replace h : moveBody tf entity sp = some s₁ := h
    have e1 := stepPreMove_parts entity fuel s sp h1
    have e2 := moveBody_body tf entity sp s₁ h
    refine ⟨?_, ?_, ?_, ?_, ?_, ?_, ?_, ?_, ?_⟩ <;>
      simp only [e2.1, e2.2.1, e2.2.2.1, e2.2.2.2.1, e2.2.2.2.2.1,
        e2.2.2.2.2.2.1, e2.2.2.2.2.2.2.1, e2.2.2.2.2.2.2.2.1,
        e2.2.2.2.2.2.2.2.2, e1.2.1, e1.2.2.1, e1.2.2.2.1, e1.2.2.2.2.1,
        e1.2.2.2.2.2.1, e1.2.2.2.2.2.2.1, e1.2.2.2.2.2.2.2.1,
        e1.2.2.2.2.2.2.2.2.1, e1.2.2.2.2.2.2.2.2.2]

theorem updateKinematicBody_active (game : PhysicsMeta) (tf : ℚ)
    (entity : Entity) (fuel : Nat) (s : StepState)
    (hact : s.body.is_deactivated = false) :
    updateKinematicBody game tf entity fuel s =
      (stepThroughMove tf entity fuel s).bind fun s1 =>
        (groundClassify entity (wedgeCheck s1)).map fun s2 =>
          rotateStep (gravityStep game tf (groundPolicy game s2)) := by
  unfold updateKinematicBody
  simp [hact]

theorem setCollider_get (w : World) (entity : Entity) (c : Collider) :
    (w.setCollider entity c).colliders entity = some c := by
  simp [World.setCollider, updateMap]

theorem handle_teleport_shapeMap (w : World) (entity e2 : Entity) :
    ((w.handle_teleport entity).colliders e2).map Collider.shape
      = (w.colliders e2).map Collider.shape := by
  unfold World.handle_teleport
  cases hc : w.colliders entity with
  | none => rfl
  | some c =>
    by_cases he : e2 = entity
    · subst he; simp [World.setCollider, updateMap, hc]
    · simp [World.setCollider, updateMap, he]

theorem descent_shapeMap (w : World) (entity e2 : Entity) :
    ((w.descent entity).colliders e2).map Collider.shape
      = (w.colliders e2).map Collider.shape := by
  unfold World.descent
  cases hc : w.colliders entity with
  | none => rfl
  | some c =>
    by_cases he : e2 = entity
    · subst he; simp [World.setCollider, updateMap, hc]
    · simp [World.setCollider, updateMap, he]

theorem spawnCheck_shapeMap (entity e2 : Entity) (s : StepState) :
    ((spawnCheck entity s).world.colliders e2).map Collider.shape
      = (s.world.colliders e2).map Collider.shape := by
  unfold spawnCheck
  split
  · exact handle_teleport_shapeMap s.world entity e2
  · rfl

theorem fallThroughDescent_shapeMap (entity e2 : Entity) (s : StepState) :
    ((fallThroughDescent entity s).world.colliders e2).map Collider.shape
      = (s.world.colliders e2).map Collider.shape := by
  unfold fallThroughDescent
  split
  · exact descent_shapeMap s.world entity e2
  · rfl

theorem moveBody_shapeMap (tf : ℚ) (entity e2 : Entity) (s s₁ : StepState)
    (h : moveBody tf entity s = some s₁) :
    (s₁.world.colliders e2).map Collider.shape
      = (s.world.colliders e2).map Collider.shape := by
  unfold moveBody at h
  cases hc : s.world.colliders entity with
  | none => rw [hc] at h; exact absurd h (by simp)
  | some c =>
    rw [hc] at h
    cases h
    by_cases he : e2 = entity
    · subst he; simp [World.setCollider, updateMap, hc]
    · simp [World.setCollider, updateMap, he]

theorem final_vx_eq (game : PhysicsMeta) (tf : ℚ) (entity : Entity)
    (fuel : Nat) (s s₁ s' : StepState)
    (hact : s.body.is_deactivated = false)
    (hsm : stepThroughMove tf entity fuel s = some s₁)
    (hstep : updateKinematicBody game tf entity fuel s = some s')
    (hf : s.body.has_friction = false) :
    s'.body.velocity.x = s₁.body.velocity.x := by
  rw [updateKinematicBody_active game tf entity fuel s hact, hsm] at hstep
  replace hstep : (groundClassify entity (wedgeCheck s₁)).map
      (fun s2 => rotateStep (gravityStep game tf (groundPolicy game s2)))
      = some s' := hstep
  cases hg : groundClassify entity (wedgeCheck s₁) with
  | none => rw [hg] at hstep; exact absurd hstep (by simp)
  | some s₃ =>
    rw [hg] at hstep
    replace hstep : some (rotateStep (gravityStep game tf (groundPolicy game s₃)))
        = some s' := hstep
    replace hstep := Option.some.inj hstep
    have hgc := groundClassify_parts entity (wedgeCheck s₁) s₃ hg
    have hwb := wedgeCheck_body s₁
    have hmv := stepThroughMove_parts tf entity fuel s s₁ hsm
    have hfric : s₃.body.has_friction = false := by
      rw [hgc.2.2.2.2.2.1, hwb.2.2.2.2.1, hmv.2.2.2.1, hf]
    rw [← hstep, rotateStep_body,
      (gravityStep_keeps game tf (groundPolicy game s₃)).2.2.2.2.2.2.1,
      groundPolicy_no_friction_vx game s₃ hfric, hgc.2.2.2.1, hwb.2.1]

/-! ## The claims -/

/-- Claim C1 — Ground classification (step 7): for every active body whose
per-tick step completes, the final flags satisfy
`is_on_ground = (tile ≠ Empty) && !(tile = JumpThrough && fall_through)` and
`is_on_platform = is_on_ground && (tile = JumpThrough)`, where `tile` is the
probe at the post-move position offset down by 0.1 and filtered to exclude
jump-through cells exactly when the mirrored collider's `seen_wood` latch is
set, and `fall_through` is the latch value after this tick's wedge check;
`was_on_ground` receives the previous tick's `is_on_ground`. -/
theorem c1_ground_classification (game : PhysicsMeta) (tf : ℚ) (entity : Entity)
    (fuel : Nat) (s s₁ s' : StepState) (c : Collider)
    (hact : s.body.is_deactivated = false)
    (hmid : stepThroughMove tf entity fuel s = some s₁)
    (hc : s₁.world.colliders entity = some c)
    (hstep : updateKinematicBody game tf entity fuel s = some s') :
    (let tile := s₁.world.tile_collision_filtered (probeDown s₁.transform)
        s₁.body.shape (seenWoodFilter s₁.world c.seen_wood)
     s'.body.is_on_ground =
        (decide (tile ≠ TileCollisionKind.Empty) &&
          !(decide (tile = TileCollisionKind.JumpThrough) &&
            (wedgeCheck s₁).body.fall_through)) ∧
     s'.body.is_on_platform =
        (s'.body.is_on_ground && decide (tile = TileCollisionKind.JumpThrough)) ∧
     s'.body.was_on_ground = s.body.is_on_ground) := by
  rw [updateKinematicBody_active game tf entity fuel s hact, hmid] at hstep
  replace hstep : (groundClassify entity (wedgeCheck s₁)).map
      (fun s2 => rotateStep (gravityStep game tf (groundPolicy game s2)))
      = some s' := hstep
  have hcw : (wedgeCheck s₁).world.colliders entity = some c := by
    rw [wedgeCheck_world]; exact hc
  have hw := wedgeCheck_body s₁
  have hmv := stepThroughMove_parts tf entity fuel s s₁ hmid
  intro tile
  have htile : (wedgeCheck s₁).world.tile_collision_filtered
      (probeDown (wedgeCheck s₁).transform) (wedgeCheck s₁).body.shape
      (seenWoodFilter (wedgeCheck s₁).world c.seen_wood) = tile := by
    rw [wedgeCheck_world, wedgeCheck_transform, hw.2.2.2.1]
  cases hg : groundClassify entity (wedgeCheck s₁) with
  | none => rw [hg] at hstep; exact absurd hstep (by simp)
  | some s₃ =>
    rw [hg] at hstep
    replace hstep : some (rotateStep (gravityStep game tf (groundPolicy game s₃)))
        = some s' := hstep
    replace hstep := Option.some.inj hstep
    rw [groundClassify_eq entity (wedgeCheck s₁) c hcw] at hg
    replace hg := Option.some.inj hg
    have hgk := gravityStep_keeps game tf (groundPolicy game s₃)
    have hgp := groundPolicy_keeps game s₃
    rw [← hstep, rotateStep_body]
    refine ⟨?_, ?_, ?_⟩
    · rw [hgk.2.2.1, hgp.2.2.1, ← hg]
      dsimp only
      rw [htile]
    · rw [hgk.2.2.2.1, hgp.2.2.2.1, hgk.2.2.1, hgp.2.2.1, ← hg]
      dsimp only
      rw [htile]
    · rw [hgk.2.2.2.2.1, hgp.2.2.2.2.1, ← hg]
      dsimp only
      rw [hw.2.2.1, hmv.1]

/-- Witness for C1: the quiescent box resting on solid tiles is classified
as grounded, not on a platform, with `was_on_ground` taken from the previous
tick. -/
theorem c1_ground_classification_witness :
    (let tile := midC1.world.tile_collision_filtered (probeDown midC1.transform)
        midC1.body.shape (seenWoodFilter midC1.world colC1.seen_wood)
     outC1.body.is_on_ground =
        (decide (tile ≠ TileCollisionKind.Empty) &&
          !(decide (tile = TileCollisionKind.JumpThrough) &&
            (wedgeCheck midC1).body.fall_through)) ∧
     outC1.body.is_on_platform =
        (outC1.body.is_on_ground && decide (tile = TileCollisionKind.JumpThrough)) ∧
     outC1.body.was_on_ground = stateC1.body.is_on_ground) :=
  c1_ground_classification game0 1 0 4 stateC1 midC1 outC1 colC1 rfl rfl rfl rfl

/-- Claim C2 — Axis-ordered move with bounce reflection (step 6): the move
sub-step first integrates the vertical axis and reflects `velocity.y` by
`-bounciness` on contact, and only then integrates the horizontal axis — on
the transform and passage memory produced by the vertical move — reflecting
`velocity.x` by `-bounciness` on contact; in particular, with
`bounciness = 1/2` and a frictionless body, a horizontal collision leaves
`velocity.x = -(1/2) * v` at the end of the tick. -/
theorem c2_axis_ordered_move (game : PhysicsMeta) (tf : ℚ) (entity : Entity)
    (fuel : Nat) (s sp s' : StepState) (c : Collider)
    (t₁ t₂ : Transform) (p₁ p₂ : Passage) (bV bH : Bool)
    (hact : s.body.is_deactivated = false)
    (hpre : stepPreMove entity fuel s = some sp)
    (hc : sp.world.colliders entity = some c)
    (hV : sp.world.move_vertical entity sp.transform c (sp.body.velocity.y * tf)
      = (t₁, p₁, bV))
    (hH : sp.world.move_horizontal entity t₁
      { c with seen_wood := p₁.seen_wood, descent := p₁.descent }
      (sp.body.velocity.x * tf) = (t₂, p₂, bH))
    (hstep : updateKinematicBody game tf entity fuel s = some s') :
    moveBody tf entity sp = some
      { world := sp.world.setCollider entity
          { c with seen_wood := p₂.seen_wood, descent := p₂.descent }
        transform := t₂
        body := { sp.body with velocity :=
          ⟨if bH then sp.body.velocity.x * (-sp.body.bounciness)
            else sp.body.velocity.x,
           if bV then sp.body.velocity.y * (-sp.body.bounciness)
            else sp.body.velocity.y⟩ } } ∧
    (bH = true → s.body.bounciness = 1 / 2 → s.body.has_friction = false →
      s'.body.velocity.x = -(1 / 2) * s.body.velocity.x) := by
  have hparts := stepPreMove_parts entity fuel s sp hpre
  have hmb : moveBody tf entity sp = some
      { world := sp.world.setCollider entity
          { c with seen_wood := p₂.seen_wood, descent := p₂.descent }
        transform := t₂
        body := { sp.body with velocity :=
          ⟨if bH then sp.body.velocity.x * (-sp.body.bounciness)
            else sp.body.velocity.x,
           if bV then sp.body.velocity.y * (-sp.body.bounciness)
            else sp.body.velocity.y⟩ } } := by
    simp only [moveBody, hc, hV]
    cases bV <;> cases bH <;> simp [hH]
  refine ⟨hmb, fun hbH hb hf => ?_⟩
  subst hbH
  have hsm : stepThroughMove tf entity fuel s = some
      { world := sp.world.setCollider entity
          { c with seen_wood := p₂.seen_wood, descent := p₂.descent }
        transform := t₂
        body := { sp.body with velocity :=
          ⟨if true then sp.body.velocity.x * (-sp.body.bounciness)
            else sp.body.velocity.x,
           if bV then sp.body.velocity.y * (-sp.body.bounciness)
            else sp.body.velocity.y⟩ } } := by
    unfold stepThroughMove
    rw [hpre]
    exact hmb
  have hvx := final_vx_eq game tf entity fuel s _ s' hact hsm hstep hf
  rw [hvx]
  dsimp only
  rw [hparts.2.2.2.2.2.2.2.1, hparts.1, hb]
  rw [if_pos rfl]
  ring

/-- Witness for C2: the frictionless box moving right at 4 into a wall ends
the tick with `velocity.x = -2`. -/
theorem c2_axis_ordered_move_witness :
    (moveBody 1 0 preC2 = some
      { world := preC2.world.setCollider 0
          { colC2 with seen_wood := false, descent := false }
        transform := preC2.transform
        body := { preC2.body with velocity :=
          ⟨if true then preC2.body.velocity.x * (-preC2.body.bounciness)
            else preC2.body.velocity.x,
           if false then preC2.body.velocity.y * (-preC2.body.bounciness)
            else preC2.body.velocity.y⟩ } } ∧
    (true = true → stateC2.body.bounciness = 1 / 2 →
      stateC2.body.has_friction = false →
      outC2.body.velocity.x = -(1 / 2) * stateC2.body.velocity.x)) :=
  c2_axis_ordered_move game0 1 0 4 stateC2 preC2 outC2 colC2
    preC2.transform preC2.transform ⟨false, false⟩ ⟨false, false⟩ false true
    rfl rfl rfl rfl rfl (by with_unfolding_all rfl)

/-- Claim C3 — counterexample: the claim also asserts that `velocity.y` is
damped by the ambient friction coefficient for every grounded body, but the
source only damps `velocity.y` inside the `has_friction` branch: a grounded
frictionless body with `velocity.y = 5` ends the tick with `velocity.y = 5`,
not `5 * friction_lerp`. -/
theorem c3_counterexample :
    (updateKinematicBody game0 1 0 4 stateC3).map
        (fun s => (s.body.is_on_ground, s.body.has_friction, s.body.velocity.y))
      = some (true, false, 5) ∧
    (5 : ℚ) ≠ 5 * game0.friction_lerp := by
  constructor
  · with_unfolding_all rfl
  · intro h
    norm_num [game0] at h

/-- Claim C3, amended — Grounded velocity policy (step 9): for a body that is
grounded, if `has_friction` then `velocity.x` is scaled by the frame override
(if present) or by `friction_lerp` and snapped to 0 at or below
`stop_threshold`, and `velocity.y` is damped by `friction_lerp` **only in the
`has_friction` branch**; finally, whenever the (possibly damped) `velocity.y`
is at or below the gravity constant, it is zeroed; the frame override is
consumed exactly when the friction branch runs. -/
theorem c3_grounded_velocity_policy (game : PhysicsMeta) (s : StepState)
    (h : s.body.is_on_ground = true) :
    (let b := s.body
     let vx1 := if b.has_friction then
        b.velocity.x * (b.frame_friction_override.getD game.friction_lerp)
      else b.velocity.x
     let vx2 := if b.has_friction ∧ |vx1| ≤ game.stop_threshold then 0 else vx1
     let vy1 := if b.has_friction then b.velocity.y * game.friction_lerp
      else b.velocity.y
     let vy2 := if vy1 ≤ game.gravity then 0 else vy1
     (groundPolicy game s).body.velocity = ⟨vx2, vy2⟩ ∧
     (groundPolicy game s).body.frame_friction_override =
       (if b.has_friction then none else b.frame_friction_override)) := by
  unfold groundPolicy
  rw [if_pos h]
  cases hf : s.body.has_friction with
  | false =>
    simp only [hf, Bool.false_eq_true, if_false, false_and]
    split <;> simp
  | true =>
    simp only [hf, if_true, true_and]
    cases ho : s.body.frame_friction_override <;>
      (dsimp only [Option.getD]; split <;> (dsimp only; split <;> simp))

/-- Witness for the amended C3: a grounded body with friction, override 1/3
and velocity (3, 5) ends the policy with `velocity = (0, 0)` (the scaled
`velocity.x = 1` stays above threshold, so it is kept; the damped
`velocity.y = 19/4` stays above gravity, so it is kept). -/
theorem c3_grounded_velocity_policy_witness :
    (let b := stateC3g.body
     let vx1 := if b.has_friction then
        b.velocity.x * (b.frame_friction_override.getD game0.friction_lerp)
      else b.velocity.x
     let vx2 := if b.has_friction ∧ |vx1| ≤ game0.stop_threshold then 0 else vx1
     let vy1 := if b.has_friction then b.velocity.y * game0.friction_lerp
      else b.velocity.y
     let vy2 := if vy1 ≤ game0.gravity then 0 else vy1
     (groundPolicy game0 stateC3g).body.velocity = ⟨vx2, vy2⟩ ∧
     (groundPolicy game0 stateC3g).body.frame_friction_override =
       (if b.has_friction then none else b.frame_friction_override)) :=
  c3_grounded_velocity_policy game0 stateC3g rfl

/-- Claim C4 — the claim (and the field's own documentation) says
`frame_friction_override` is reset to `None` every tick for every active
body; the code only resets it when the body ends the tick grounded with
friction, so an airborne body with friction keeps its override: the bug
exhibited at a concrete input. -/
theorem c4_override_persists_bug :
    (updateKinematicBody game0 1 0 4 stateC4).map
        (fun s => (s.body.is_on_ground, s.body.frame_friction_override))
      = some (false, some (1 / 2)) := by
  with_unfolding_all rfl

/-- Claim C5 — Gravity integration (step 10): a massless body is a fixed point
of gravity integration for any number of ticks; an airborne massive body has
`velocity.y` decreased by `gravity * time_factor` and clamped from below at
`-terminal_velocity`, with the transform and `velocity.x` untouched. -/
theorem c5_gravity_integration (game : PhysicsMeta) (tf : ℚ) (s : StepState) :
    (s.body.has_mass = false → ∀ n : Nat, (gravityStep game tf)^[n] s = s) ∧
    (s.body.has_mass = true → s.body.is_on_ground = false →
      (gravityStep game tf s).body.velocity.y
        = max (s.body.velocity.y - s.body.gravity * tf) (-game.terminal_velocity) ∧
      (gravityStep game tf s).transform = s.transform ∧
      (gravityStep game tf s).body.velocity.x = s.body.velocity.x) := by
  constructor
  · intro h n
    induction n with
    | zero => rfl
    | succ n ih =>
      rw [Function.iterate_succ_apply, gravityStep_no_mass game tf s h]
      exact ih
  · intro hm hg
    unfold gravityStep
    rw [hg, hm]
    simp only [Bool.not_false, Bool.true_and, if_true]
    refine ⟨?_, ?_, ?_⟩
    · dsimp only
      split
      · rename_i hlt
        exact (max_eq_right hlt.le).symm
      · rename_i hlt
        exact (max_eq_left (not_lt.mp hlt)).symm
    · trivial
    · split <;> rfl

/-- Witness for C5: the massless body is unchanged by three rounds of gravity
integration, and the fast-falling massive body is clamped at the terminal
velocity floor. -/
theorem c5_gravity_integration_witness :
    (gravityStep game0 1)^[3] stateC5a = stateC5a ∧
    (gravityStep game0 1 stateC5b).body.velocity.y
      = max (stateC5b.body.velocity.y - stateC5b.body.gravity * 1)
          (-game0.terminal_velocity) :=
  ⟨(c5_gravity_integration game0 1 stateC5a).1 rfl 3,
   ((c5_gravity_integration game0 1 stateC5b).2 rfl rfl).1⟩

/-- Claim C6 — counterexample: the claim asserts that whenever no unambiguous
corner pattern matches (for instance all four corners blocked) the loop
"reports an anomaly"; in the source the anomaly warning is only emitted in
the all-corners-clear case, and the all-blocked case breaks silently: with
every corner probe solid, the loop aborts with the anomaly flag `false`. -/
theorem c6_counterexample :
    worldAllBlocked.tile_collision trans0 body0.shape = TileCollisionKind.Solid ∧
    worldAllBlocked.solid_at ⟨-11 / 10, 11 / 10⟩ = true ∧
    worldAllBlocked.solid_at ⟨11 / 10, 11 / 10⟩ = true ∧
    worldAllBlocked.solid_at ⟨11 / 10, -11 / 10⟩ = true ∧
    worldAllBlocked.solid_at ⟨-11 / 10, -11 / 10⟩ = true ∧
    depenLoop worldAllBlocked body0 trans0 5 = some (trans0, false) :=
  ⟨rfl, rfl, rfl, rfl, rfl, by with_unfolding_all rfl⟩

/-- Claim C6, amended — De-penetration loop (step 2): while the shape is in
solid collision, one iteration probes the four padded AABB corners and acts
by the source's match priority: all four corners clear → report the anomaly
and abort, leaving the body where it is; else top pair clear → nudge +1 in y;
else right pair clear → +1 in x; else bottom pair clear → −1 in y; else left
pair clear → −1 in x; otherwise (no adjacent pair clear: all blocked, a
single corner clear, or only diagonal corners clear) abort silently, leaving
the body overlapping; every corner configuration is handled, so the step
never panics. -/
theorem c6_depenetration_cases (w : World) (body : KinematicBody)
    (t : Transform) (fuel : Nat) (tl tr br bl : Bool)
    (hcol : w.tile_collision t body.shape = TileCollisionKind.Solid)
    (htl : w.solid_at ⟨(body.bounding_box t).min.x - 1 / 10,
      (body.bounding_box t).max.y + 1 / 10⟩ = tl)
    (htr : w.solid_at ⟨(body.bounding_box t).max.x + 1 / 10,
      (body.bounding_box t).max.y + 1 / 10⟩ = tr)
    (hbr : w.solid_at ⟨(body.bounding_box t).max.x + 1 / 10,
      (body.bounding_box t).min.y - 1 / 10⟩ = br)
    (hbl : w.solid_at ⟨(body.bounding_box t).min.x - 1 / 10,
      (body.bounding_box t).min.y - 1 / 10⟩ = bl) :
    depenLoop w body t (fuel + 1) =
      (if tl = false ∧ tr = false ∧ br = false ∧ bl = false then some (t, true)
       else if tl = false ∧ tr = false then depenLoop w body (offsetY t 1) fuel
       else if tr = false ∧ br = false then depenLoop w body (offsetX t 1) fuel
       else if br = false ∧ bl = false then depenLoop w body (offsetY t (-1)) fuel
       else if tl = false ∧ bl = false then depenLoop w body (offsetX t (-1)) fuel
       else some (t, false)) := by
  rw [depenLoop]
  rw [if_neg (by simp [hcol])]
  simp only [htl, htr, hbr, hbl]
  cases tl <;> cases tr <;> cases br <;> cases bl <;> simp

/-- Witness for the amended C6: with solid shape collision but all four
corner probes clear, one iteration reports the anomaly and aborts with the
transform unchanged. -/
theorem c6_depenetration_cases_witness :
    depenLoop worldAllClear body0 trans0 (4 + 1) =
      (if (false : Bool) = false ∧ (false : Bool) = false ∧
          (false : Bool) = false ∧ (false : Bool) = false then
        some (trans0, true)
       else if (false : Bool) = false ∧ (false : Bool) = false then
        depenLoop worldAllClear body0 (offsetY trans0 1) 4
       else if (false : Bool) = false ∧ (false : Bool) = false then
        depenLoop worldAllClear body0 (offsetX trans0 1) 4
       else if (false : Bool) = false ∧ (false : Bool) = false then
        depenLoop worldAllClear body0 (offsetY trans0 (-1)) 4
       else if (false : Bool) = false ∧ (false : Bool) = false then
        depenLoop worldAllClear body0 (offsetX trans0 (-1)) 4
       else some (trans0, false)) :=
  c6_depenetration_cases worldAllClear body0 trans0 4 false false false false
    rfl rfl rfl rfl rfl

theorem syncColliderShape_shapeMap (entity : Entity) (s s' : StepState)
    (h : syncColliderShape entity s = some s') :
    (s'.world.colliders entity).map Collider.shape = some s.body.shape := by
  unfold syncColliderShape at h
  cases hc : s.world.colliders entity with
  | none => rw [hc] at h; exact absurd h (by simp)
  | some c => rw [hc] at h; cases h; simp [setCollider_get]

theorem stepPreMove_shapeMap (entity : Entity) (fuel : Nat) (s sp : StepState)
    (h : stepPreMove entity fuel s = some sp) :
    (sp.world.colliders entity).map Collider.shape = some s.body.shape := by
  unfold stepPreMove at h
  cases h1 : syncDisabledStep entity false s with
  | none => rw [h1] at h; exact absurd h (by simp)
  | some sa =>
    rw [h1] at h
    replace h : (shoveOutOfWalls fuel sa).bind
        (fun s => (syncColliderShape entity s).map fun s =>
          fallThroughDescent entity (spawnCheck entity s)) = some sp := h
    cases h2 : shoveOutOfWalls fuel sa with
    | none => rw [h2] at h; exact absurd h (by simp)
    | some sb =>
      rw [h2] at h
      replace h : (syncColliderShape entity sb).map
          (fun s => fallThroughDescent entity (spawnCheck entity s)) = some sp := h
      cases h3 : syncColliderShape entity sb with
      | none => rw [h3] at h; exact absurd h (by simp)
      | some sc =>
        rw [h3] at h
        replace h : some (fallThroughDescent entity (spawnCheck entity sc)) = some sp := h
        have hsp := Option.some.inj h
        subst hsp
        rw [fallThroughDescent_shapeMap, spawnCheck_shapeMap,
          syncColliderShape_shapeMap entity sb sc h3,
          (shoveOutOfWalls_parts fuel sa sb h2).2,
          (syncDisabledStep_parts entity false s sa h1).2]

/-- Claim C7 — counterexample: the claim extends the shape-mirror property to
every hydrated body, but a deactivated body skips the shape sync, so its
mirrored collider keeps the stale shape at the end of the tick. -/
theorem c7_counterexample :
    stateC7.body.is_deactivated = true ∧
    (updateKinematicBody game0 1 0 4 stateC7).map
        (fun s => ((s.world.colliders 0).map Collider.shape, s.body.shape))
      = some (some (ColliderShape.Box 2 2), ColliderShape.Box 1 1) ∧
    ColliderShape.Box 2 2 ≠ ColliderShape.Box 1 1 := by
  refine ⟨rfl, by with_unfolding_all rfl, ?_⟩
  intro h
  have := ColliderShape.Box.inj h
  norm_num at this

/-- Claim C7, amended — Collider shape mirror: for every active
(non-deactivated) hydrated body, the mirrored collider's shape equals the
body's shape at the end of the per-tick step, so a shape change on an active
body is never stale beyond one tick. -/
theorem c7_shape_mirror (game : PhysicsMeta) (tf : ℚ) (entity : Entity)
    (fuel : Nat) (s s' : StepState)
    (hact : s.body.is_deactivated = false)
    (hstep : updateKinematicBody game tf entity fuel s = some s') :
    (s'.world.colliders entity).map Collider.shape = some s.body.shape := by
  rw [updateKinematicBody_active game tf entity fuel s hact] at hstep
  cases hsm : stepThroughMove tf entity fuel s with
  | none => rw [hsm] at hstep; exact absurd hstep (by simp)
  | some s₁ =>
    rw [hsm] at hstep
    replace hstep : (groundClassify entity (wedgeCheck s₁)).map
        (fun s2 => rotateStep (gravityStep game tf (groundPolicy game s2)))
        = some s' := hstep
    cases hg : groundClassify entity (wedgeCheck s₁) with
    | none => rw [hg] at hstep; exact absurd hstep (by simp)
    | some s₃ =>
      rw [hg] at hstep
      replace hstep : some (rotateStep (gravityStep game tf (groundPolicy game s₃)))
          = some s' := hstep
      replace hstep := Option.some.inj hstep
      rw [← hstep, rotateStep_world, (gravityStep_keeps game tf _).1,
        (groundPolicy_keeps game _).1,
        (groundClassify_parts entity (wedgeCheck s₁) s₃ hg).1, wedgeCheck_world]
      unfold stepThroughMove at hsm
      cases h1 : stepPreMove entity fuel s with
      | none => rw [h1] at hsm; exact absurd hsm (by simp)
      | some sp =>
        rw [h1] at hsm
        replace hsm : moveBody tf entity sp = some s₁ := hsm
        rw [moveBody_shapeMap tf entity entity sp s₁ hsm,
          stepPreMove_shapeMap entity fuel s sp h1]

/-- Witness for the amended C7: after stepping the active quiescent body, the
mirrored collider's shape is the body's 2×2 box. -/
theorem c7_shape_mirror_witness :
    (outC7.world.colliders 0).map Collider.shape = some state0.body.shape :=
  c7_shape_mirror game0 1 0 4 state0 outC7 rfl rfl

theorem handle_teleport_other (w : World) (a e : Entity) (h : e ≠ a) :
    (w.handle_teleport a).colliders e = w.colliders e ∧
    (w.handle_teleport a).actors e = w.actors e := by
  unfold World.handle_teleport
  cases w.colliders a <;> simp [World.setCollider, updateMap, h]

theorem hydrateOne_other (bodies : Entity → Option KinematicBody) (w : World)
    (a e : Entity) (h : e ≠ a) :
    (hydrateOne bodies w a).colliders e = w.colliders e ∧
    (hydrateOne bodies w a).actors e = w.actors e := by
  unfold hydrateOne
  cases bodies a with
  | none => exact ⟨rfl, rfl⟩
  | some b =>
    dsimp only
    constructor
    · rw [(handle_teleport_other _ a e h).1]
      simp [updateMap, h]
    · rw [(handle_teleport_other _ a e h).2]
      simp [h]

theorem hydrateOne_self (bodies : Entity → Option KinematicBody) (w : World)
    (e : Entity) (b : KinematicBody) (hb : bodies e = some b) :
    (hydrateOne bodies w e).colliders e = some ⟨b.shape, false, false, false⟩ ∧
    (hydrateOne bodies w e).actors e = true := by
  unfold hydrateOne
  rw [hb]
  dsimp only
  constructor
  · simp [World.handle_teleport, World.setCollider, updateMap]
  · simp [World.handle_teleport, World.setCollider, updateMap]

theorem hydrateFold_not_mem (bodies : Entity → Option KinematicBody)
    (e : Entity) :
    ∀ (l : List Entity) (w : World), e ∉ l →
      (l.foldl (hydrateOne bodies) w).colliders e = w.colliders e ∧
      (l.foldl (hydrateOne bodies) w).actors e = w.actors e := by
  intro l
  induction l with
  | nil => intro w _; exact ⟨rfl, rfl⟩
  | cons a l ih =>
    intro w hmem
    have ha : e ≠ a := fun h => hmem (h ▸ List.mem_cons_self a l)
    have hl : e ∉ l := fun h => hmem (List.mem_cons_of_mem a h)
    rw [List.foldl_cons]
    have h1 := hydrateOne_other bodies w a e ha
    have h2 := ih (hydrateOne bodies w a) hl
    exact ⟨h2.1.trans h1.1, h2.2.trans h1.2⟩

theorem hydrateFold_mem (bodies : Entity → Option KinematicBody) (e : Entity)
    (b : KinematicBody) (hb : bodies e = some b) :
    ∀ (l : List Entity) (w : World), e ∈ l →
      (l.foldl (hydrateOne bodies) w).colliders e
        = some ⟨b.shape, false, false, false⟩ ∧
      (l.foldl (hydrateOne bodies) w).actors e = true := by
  intro l
  induction l with
  | nil => intro w h; exact absurd h (List.not_mem_nil e)
  | cons a l ih =>
    intro w hmem
    rw [List.foldl_cons]
    by_cases hl : e ∈ l
    · exact ih (hydrateOne bodies w a) hl
    · have ha : e = a := by
        rcases List.mem_cons.mp hmem with h | h
        · exact h
        · exact absurd h hl
      subst ha
      have h1 := hydrateOne_self bodies w e b hb
      have h2 := hydrateFold_not_mem bodies e l (hydrateOne bodies w e) hl
      exact ⟨h2.1.trans h1.1, h2.2.trans h1.2⟩

/-- Claim C8 — Hydration: an entity carrying a body but no collider that the
tick's entity iteration visits receives exactly one collider initialized with
the body's shape and cleared passage memory (`handle_teleport`), and its
actor marker is registered; an already-hydrated entity's collider and actor
registration are left untouched, so hydration never creates a second
collider. -/
theorem c8_hydration (entities : List Entity)
    (bodies : Entity → Option KinematicBody) (w : World) (e : Entity) :
    (∀ b, bodies e = some b → w.colliders e = none → e ∈ entities →
      (hydrate_physics_bodies entities bodies w).colliders e
          = some ⟨b.shape, false, false, false⟩ ∧
      (hydrate_physics_bodies entities bodies w).actors e = true) ∧
    ((w.colliders e).isSome = true →
      (hydrate_physics_bodies entities bodies w).colliders e = w.colliders e ∧
      (hydrate_physics_bodies entities bodies w).actors e = w.actors e) := by
  constructor
  · intro b hb hcol hmem
    simp only [hydrate_physics_bodies]
    apply hydrateFold_mem bodies e b hb
    rw [List.mem_filter]
    exact ⟨hmem, by simp [hcol, hb]⟩
  · intro hsome
    simp only [hydrate_physics_bodies]
    apply hydrateFold_not_mem
    intro hmem
    rw [List.mem_filter] at hmem
    rw [hsome] at hmem
    simp at hmem

/-- Witness for C8: hydrating entity 0 (body, no collider) in the empty world
creates its collider with the body's shape and registers the actor marker. -/
theorem c8_hydration_witness :
    (hydrate_physics_bodies [0] bodiesC8 emptyWorld).colliders 0
        = some ⟨body0.shape, false, false, false⟩ ∧
    (hydrate_physics_bodies [0] bodiesC8 emptyWorld).actors 0 = true :=
  (c8_hydration [0] bodiesC8 emptyWorld 0).1 body0 rfl rfl (by simp)

/-- Claim C9 — Motionless-wedge edge case (step 8): the end-of-tick
`fall_through` equals the old value or-ed with the wedge condition — it is
latched exactly when the post-move velocity is `(0,0)` and the probe
restricted to jump-through cells still reports `JumpThrough` at the current
position, and left unchanged otherwise. -/
theorem c9_motionless_wedge (game : PhysicsMeta) (tf : ℚ) (entity : Entity)
    (fuel : Nat) (s s₁ s' : StepState)
    (hact : s.body.is_deactivated = false)
    (hmid : stepThroughMove tf entity fuel s = some s₁)
    (hstep : updateKinematicBody game tf entity fuel s = some s') :
    s'.body.fall_through =
      ((decide (s₁.body.velocity = Vec2.ZERO) &&
        decide (s₁.world.tile_collision_filtered s₁.transform s₁.body.shape
          (jumpThroughOnlyFilter s₁.world) = TileCollisionKind.JumpThrough)) ||
       s.body.fall_through) := by
  rw [updateKinematicBody_active game tf entity fuel s hact, hmid] at hstep
  replace hstep : (groundClassify entity (wedgeCheck s₁)).map
      (fun s2 => rotateStep (gravityStep game tf (groundPolicy game s2)))
      = some s' := hstep
  cases hg : groundClassify entity (wedgeCheck s₁) with
  | none => rw [hg] at hstep; exact absurd hstep (by simp)
  | some s₃ =>
    rw [hg] at hstep
    replace hstep : some (rotateStep (gravityStep game tf (groundPolicy game s₃)))
        = some s' := hstep
    replace hstep := Option.some.inj hstep
    rw [← hstep, rotateStep_body, (gravityStep_keeps game tf _).2.2.2.2.2.1,
      (groundPolicy_keeps game _).2.2.2.2.2.1,
      (groundClassify_parts entity (wedgeCheck s₁) s₃ hg).2.2.1,
      (wedgeCheck_body s₁).1,
      (stepThroughMove_parts tf entity fuel s s₁ hmid).2.2.1]

/-- Witness for C9: the motionless body over jump-through tiles latches
`fall_through`. -/
theorem c9_motionless_wedge_witness :
    outC9.body.fall_through =
      ((decide (midC9.body.velocity = Vec2.ZERO) &&
        decide (midC9.world.tile_collision_filtered midC9.transform
          midC9.body.shape (jumpThroughOnlyFilter midC9.world)
          = TileCollisionKind.JumpThrough)) ||
       stateC9.body.fall_through) :=
  c9_motionless_wedge game0 1 0 4 stateC9 midC9 outC9 rfl rfl rfl

/-- Claim C10 — the wedge check runs before the ground probe in the same tick:
an active body whose post-move velocity is `(0,0)`, whose restricted probe
still reports `JumpThrough`, and whose ground probe does not hit `Solid`, is
reported airborne (neither grounded nor on-platform) in the very tick the
`fall_through` latch is set. -/
theorem c10_wedge_same_tick (game : PhysicsMeta) (tf : ℚ) (entity : Entity)
    (fuel : Nat) (s s₁ s' : StepState) (c : Collider)
    (hact : s.body.is_deactivated = false)
    (hmid : stepThroughMove tf entity fuel s = some s₁)
    (hstep : updateKinematicBody game tf entity fuel s = some s')
    (hvel : s₁.body.velocity = Vec2.ZERO)
    (hwedge : s₁.world.tile_collision_filtered s₁.transform s₁.body.shape
      (jumpThroughOnlyFilter s₁.world) = TileCollisionKind.JumpThrough)
    (hc : s₁.world.colliders entity = some c)
    (hns : s₁.world.tile_collision_filtered (probeDown s₁.transform)
      s₁.body.shape (seenWoodFilter s₁.world c.seen_wood)
      ≠ TileCollisionKind.Solid) :
    s'.body.fall_through = true ∧ s'.body.is_on_ground = false ∧
    s'.body.is_on_platform = false := by
  have hw := wedgeCheck_body s₁
  have hwft : (wedgeCheck s₁).body.fall_through = true := by
    rw [hw.1, hvel, hwedge]
    simp
  rw [updateKinematicBody_active game tf entity fuel s hact, hmid] at hstep
  replace hstep : (groundClassify entity (wedgeCheck s₁)).map
      (fun s2 => rotateStep (gravityStep game tf (groundPolicy game s2)))
      = some s' := hstep
  have hcw : (wedgeCheck s₁).world.colliders entity = some c := by
    rw [wedgeCheck_world]; exact hc
  have htile : (wedgeCheck s₁).world.tile_collision_filtered
      (probeDown (wedgeCheck s₁).transform) (wedgeCheck s₁).body.shape
      (seenWoodFilter (wedgeCheck s₁).world c.seen_wood)
      = s₁.world.tile_collision_filtered (probeDown s₁.transform) s₁.body.shape
        (seenWoodFilter s₁.world c.seen_wood) := by
    rw [wedgeCheck_world, wedgeCheck_transform, hw.2.2.2.1]
  cases hg : groundClassify entity (wedgeCheck s₁) with
  | none => rw [hg] at hstep; exact absurd hstep (by simp)
  | some s₃ =>
    rw [hg] at hstep
    replace hstep : some (rotateStep (gravityStep game tf (groundPolicy game s₃)))
        = some s' := hstep
    replace hstep := Option.some.inj hstep
    have hparts3 := groundClassify_parts entity (wedgeCheck s₁) s₃ hg
    rw [groundClassify_eq entity (wedgeCheck s₁) c hcw] at hg
    replace hg := Option.some.inj hg
    have hgk := gravityStep_keeps game tf (groundPolicy game s₃)
    have hgp := groundPolicy_keeps game s₃
    refine ⟨?_, ?_, ?_⟩
    · rw [← hstep, rotateStep_body, hgk.2.2.2.2.2.1, hgp.2.2.2.2.2.1,
        hparts3.2.2.1]
      exact hwft
    · rw [← hstep, rotateStep_body, hgk.2.2.1, hgp.2.2.1, ← hg]
      dsimp only
      rw [htile, hwft]
      cases hT : s₁.world.tile_collision_filtered (probeDown s₁.transform)
          s₁.body.shape (seenWoodFilter s₁.world c.seen_wood) <;> simp
      exact absurd hT hns
    · rw [← hstep, rotateStep_body, hgk.2.2.2.1, hgp.2.2.2.1, ← hg]
      dsimp only
      rw [htile, hwft]
      cases hT : s₁.world.tile_collision_filtered (probeDown s₁.transform)
          s₁.body.shape (seenWoodFilter s₁.world c.seen_wood) <;> simp

/-- Witness for C10: the motionless body over jump-through tiles is reported
airborne in the tick its latch is set. -/
theorem c10_wedge_same_tick_witness :
    outC9.body.fall_through = true ∧ outC9.body.is_on_ground = false ∧
    outC9.body.is_on_platform = false :=
  c10_wedge_same_tick game0 1 0 4 stateC9 midC9 outC9 colC9
    rfl rfl rfl rfl rfl rfl (by decide)

end FishPhysics
